import Mathlib

/-!
Verification development for the GLB comparison tool.

The repository has two independent cores:

* a pixel comparator (the inline `window.pixelmatch` in pixelmatch.js and the
  fallback `simplePixelMatch` in ComparisonService / script.js), pure loops
  over flat RGBA buffers;
* a camera-sync coordinator (`CameraSync` in src/services/CameraSync.js),
  a registry of named viewers with a re-entrancy guard.

Buffers are modelled as functions from byte index to value: input buffers
carry integer channel values (JS reads of typed arrays), output buffers carry
rational values (the JS numbers assigned by the loops; the loops only ever
write, never read, the output).  JS number arithmetic on the small integers
and decimal literals involved is exact, so rationals model it faithfully.
-/

/-! ### Pixel comparator: window.pixelmatch (pixelmatch.js) -/

/-- Options record for `window.pixelmatch`, already resolved against the
defaults of the source (`threshold` 0.1, `includeAA` false, `alpha` 0.1,
`diffColor` [255,0,0]).  `includeAA` is read by the source into a local
constant but never used afterwards. -/
structure PixelmatchOptions where
  threshold : ℚ
  includeAA : Bool
  alpha : ℚ
  diffColor : ℚ × ℚ × ℚ
deriving DecidableEq

/-- The default options of `window.pixelmatch`. -/
def pixelmatchDefaults : PixelmatchOptions :=
  ⟨1/10, false, 1/10, (255, 0, 0)⟩

/-- Exact decision of the branch condition of `window.pixelmatch`:
`Math.sqrt(0.299*dR*dR + 0.587*dG*dG + 0.114*dB*dB) / 255 > threshold`.
For a nonnegative threshold t the comparison holds iff
299*dR^2 + 587*dG^2 + 114*dB^2 > 1000 * (255*t)^2 = 65025000 * t^2,
and for a negative threshold it always holds; this is proved against the
real square root in `diffExceeds_iff_sqrt` below. -/
def diffExceeds (dR dG dB : ℤ) (t : ℚ) : Bool :=
  decide (t < 0) || decide (65025000 * t^2 < ((299 * dR^2 + 587 * dG^2 + 114 * dB^2 : ℤ) : ℚ))

/-- Pointwise functional update of an output buffer (one JS array store). -/
def upd (f : ℕ → ℚ) (i : ℕ) (v : ℚ) : ℕ → ℚ :=
  fun j => if j = i then v else f j

/-- The branch condition of the pixel loop of `window.pixelmatch` at pixel
index p (byte index i = 4*p): the weighted distance exceeds the threshold. -/
def pmHit (img1 img2 : ℕ → ℤ) (opts : PixelmatchOptions) (p : ℕ) : Bool :=
  diffExceeds (img1 (4*p) - img2 (4*p)) (img1 (4*p+1) - img2 (4*p+1))
    (img1 (4*p+2) - img2 (4*p+2)) opts.threshold

/-- Loop body of `window.pixelmatch` for one pixel p (byte index i = 4*p),
acting on the state (output buffer, mismatch count): if the distance exceeds
the threshold, store diffColor with alpha 255 and increment the count,
otherwise store the blend of the img1 pixel toward white with alpha 255. -/
def pmStep (img1 img2 : ℕ → ℤ) (opts : PixelmatchOptions)
    (st : (ℕ → ℚ) × ℕ) (p : ℕ) : (ℕ → ℚ) × ℕ :=
  let i := 4*p
  let r1 := img1 i
  let g1 := img1 (i+1)
  let b1 := img1 (i+2)
  if pmHit img1 img2 opts p then
    (upd (upd (upd (upd st.1 i opts.diffColor.1) (i+1) opts.diffColor.2.1)
      (i+2) opts.diffColor.2.2) (i+3) 255, st.2 + 1)
  else
    (upd (upd (upd (upd st.1 i (255*(1-opts.alpha) + (r1 : ℚ)*opts.alpha))
      (i+1) (255*(1-opts.alpha) + (g1 : ℚ)*opts.alpha))
      (i+2) (255*(1-opts.alpha) + (b1 : ℚ)*opts.alpha)) (i+3) 255, st.2)

/-- `window.pixelmatch` (pixelmatch.js).  The source iterates y < height,
x < width with byte index i = (y*width + x)*4; the map (y,x) to y*width + x
enumerates 0, 1, ..., width*height - 1 in increasing order, so the nested
loops equal one pass over the pixel indices p < width*height with i = 4*p.
Returns the final output buffer together with the returned count. -/
def pixelmatch (img1 img2 : ℕ → ℤ) (output : ℕ → ℚ) (width height : ℕ)
    (opts : PixelmatchOptions) : (ℕ → ℚ) × ℕ :=
  (List.range (width * height)).foldl (pmStep img1 img2 opts) (output, 0)

/-- The value the pixelmatch loop stores at byte offset k (k < 4) of pixel p:
diffColor channels with alpha 255 on a hit, the white blend of the img1
channels with alpha 255 otherwise. -/
def pmVal (img1 img2 : ℕ → ℤ) (opts : PixelmatchOptions) (p k : ℕ) : ℚ :=
  if pmHit img1 img2 opts p then
    if k = 0 then opts.diffColor.1
    else if k = 1 then opts.diffColor.2.1
    else if k = 2 then opts.diffColor.2.2
    else 255
  else
    if k = 0 then 255*(1-opts.alpha) + (img1 (4*p) : ℚ)*opts.alpha
    else if k = 1 then 255*(1-opts.alpha) + (img1 (4*p+1) : ℚ)*opts.alpha
    else if k = 2 then 255*(1-opts.alpha) + (img1 (4*p+2) : ℚ)*opts.alpha
    else 255

/-! ### Generic facts about pixel-writing loops

Both comparator loops have the same shape: the body at pixel p writes the
four byte indices 4*p .. 4*p+3 with values that do not depend on the running
state, and increments the count according to a predicate on p alone. -/

/-- A loop body writes pixels according to `val` and counts according to
`hit`: it stores `val p k` at byte index 4*p+k, leaves all other indices
unchanged, and increments the count exactly on `hit p`. -/
def IsPixelWriter (f : ((ℕ → ℚ) × ℕ) → ℕ → ((ℕ → ℚ) × ℕ))
    (val : ℕ → ℕ → ℚ) (hit : ℕ → Bool) : Prop :=
  (∀ st p j, (f st p).1 j =
      if 4*p ≤ j ∧ j < 4*p + 4 then val p (j - 4*p) else st.1 j)
  ∧ (∀ st p, (f st p).2 = st.2 + (if hit p then 1 else 0))

/-! ### Fallback comparator: simplePixelMatch

Two textually identical copies of the loop exist (ComparisonService in
src/services and the top level of script.js); they differ only in how the
threshold option is defaulted.  A buffer here carries an explicit length,
since this loop is bounded by `img1.length`, not by width and height. -/

/-- A JS typed-array buffer: byte values plus the array length. -/
structure ImageBuffer where
  data : ℕ → ℤ
  length : ℕ

/-- Threshold defaulting of ComparisonService.simplePixelMatch:
`options?.threshold || 0.1`.  The outer Option models a missing options
object, the inner one a missing threshold field; a threshold of 0 is falsy
in JS and is replaced by the default. -/
def csThreshold (options : Option (Option ℚ)) : ℚ :=
  match options with
  | some (some t) => if t = 0 then 1/10 else t
  | _ => 1/10

/-- Threshold defaulting of the script.js copy:
`options && options.threshold !== undefined ? options.threshold : 0.1`;
unlike `csThreshold` this keeps an explicit 0. -/
def scriptThreshold (options : Option (Option ℚ)) : ℚ :=
  match options with
  | some (some t) => t
  | _ => 1/10

/-- Branch condition of the simplePixelMatch loop at pixel p:
`(|dR| + |dG| + |dB|) / 765 > threshold`. -/
def spmHit (img1 img2 : ℕ → ℤ) (threshold : ℚ) (p : ℕ) : Bool :=
  decide (((|img1 (4*p) - img2 (4*p)| + |img1 (4*p+1) - img2 (4*p+1)|
    + |img1 (4*p+2) - img2 (4*p+2)| : ℤ) : ℚ) / 765 > threshold)

/-- Loop body of simplePixelMatch for one pixel p (byte index i = 4*p):
on a hit store opaque red and increment the count, otherwise store the img1
channels with alpha 255. -/
def spmStep (img1 img2 : ℕ → ℤ) (threshold : ℚ)
    (st : (ℕ → ℚ) × ℕ) (p : ℕ) : (ℕ → ℚ) × ℕ :=
  let i := 4*p
  let r1 := img1 i
  let g1 := img1 (i+1)
  let b1 := img1 (i+2)
  if spmHit img1 img2 threshold p then
    (upd (upd (upd (upd st.1 i 255) (i+1) 0) (i+2) 0) (i+3) 255, st.2 + 1)
  else
    (upd (upd (upd (upd st.1 i (r1 : ℚ)) (i+1) (g1 : ℚ)) (i+2) (b1 : ℚ))
      (i+3) 255, st.2)

/-- The shared loop of both simplePixelMatch copies.  The source iterates
`for (i = 0; i < img1.length; i += 4)`, i.e. i = 4*p for
p < ceil(img1.length / 4); width and height are never read. -/
def simplePixelMatchCore (img1 img2 : ImageBuffer) (output : ℕ → ℚ)
    (threshold : ℚ) : (ℕ → ℚ) × ℕ :=
  (List.range ((img1.length + 3) / 4)).foldl
    (spmStep img1.data img2.data threshold) (output, 0)

/-- ComparisonService.simplePixelMatch (src/services/CameraSync.js).
`width` and `height` are parameters of the source function but are never
read by its body. -/
def simplePixelMatch (img1 img2 : ImageBuffer) (output : ℕ → ℚ)
    (width height : ℕ) (options : Option (Option ℚ)) : (ℕ → ℚ) × ℕ :=
  simplePixelMatchCore img1 img2 output (csThreshold options)

/-- The script.js copy of simplePixelMatch; same loop, different threshold
defaulting. -/
def scriptSimplePixelMatch (img1 img2 : ImageBuffer) (output : ℕ → ℚ)
    (width height : ℕ) (options : Option (Option ℚ)) : (ℕ → ℚ) × ℕ :=
  simplePixelMatchCore img1 img2 output (scriptThreshold options)

/-- The value the simplePixelMatch loop stores at byte offset k (k < 4) of
pixel p. -/
def spmVal (img1 img2 : ℕ → ℤ) (threshold : ℚ) (p k : ℕ) : ℚ :=
  if spmHit img1 img2 threshold p then
    if k = 0 then 255 else if k = 1 then 0 else if k = 2 then 0 else 255
  else
    if k = 0 then (img1 (4*p) : ℚ)
    else if k = 1 then (img1 (4*p+1) : ℚ)
    else if k = 2 then (img1 (4*p+2) : ℚ)
    else 255

/-- Pixel-processing core of ComparisonService.processImageComparison
(src/services/CameraSync.js): if `window.pixelmatch` is a function it is
called with threshold 0.05, includeAA false, alpha 0.1, diffColor [255,0,0];
otherwise the fallback simplePixelMatch is called with threshold 0.05.
The flag stands for the runtime capability probe; the surrounding canvas
and DOM plumbing only transports the buffers and is not modelled. -/
def processImageComparisonPixels (pixelmatchAvailable : Bool)
    (data1 data2 : ImageBuffer) (diffData : ℕ → ℚ)
    (width height : ℕ) : (ℕ → ℚ) × ℕ :=
  if pixelmatchAvailable then
    pixelmatch data1.data data2.data diffData width height
      ⟨1/20, false, 1/10, (255, 0, 0)⟩
  else
    simplePixelMatch data1 data2 diffData width height (some (some (1/20)))

/-! ### Dimension handling: compareImages (scripts/compare-models.js) and
ModelComparator.compareModels (js/ModelComparator.js) -/

/-- A decoded PNG as seen by compareImages: its own width, height and flat
RGBA data. -/
structure PNGImage where
  width : ℕ
  height : ℕ
  data : ℕ → ℤ

/-- The options object compareImages passes to the npm pixelmatch library. -/
structure NpmOptions where
  threshold : ℚ
  includeAlpha : Bool
  diffColorAlt : List ℚ
  diffColor : List ℚ

/-- The record compareImages returns. -/
structure CompareResult where
  width : ℕ
  height : ℕ
  totalPixels : ℕ
  diffPixels : ℕ
  diffPercentage : ℚ
  similarityPercentage : ℚ
  threshold : ℚ

/-- compareImages (scripts/compare-models.js).  The npm `pixelmatch` package
it calls is an external dependency, not code of this repository, so the
function is modelled parametrically in it: `pm` receives the two data
buffers, a zero-initialised diff buffer (`new PNG` zero-fills), the cropped
width and height, and the options, and returns the diff buffer and the
count.  The source then writes the diff image to disk (not modelled) and
returns the metrics record. -/
def compareImages
    (pm : (ℕ → ℤ) → (ℕ → ℤ) → (ℕ → ℚ) → ℕ → ℕ → NpmOptions → ((ℕ → ℚ) × ℕ))
    (img1 img2 : PNGImage) (threshold : ℚ) : CompareResult :=
  let width := min img1.width img2.width
  let height := min img1.height img2.height
  let diffPixels := (pm img1.data img2.data (fun _ => 0) width height
    ⟨threshold, false, [255, 0, 0, 255], [0, 255, 0, 255]⟩).2
  let totalPixels := width * height
  let diffPercentage := ((diffPixels : ℚ) / (totalPixels : ℚ)) * 100
  ⟨width, height, totalPixels, diffPixels, diffPercentage,
    100 - diffPercentage, threshold⟩

/-- The dimension selection of ModelComparator.compareModels
(js/ModelComparator.js): `width = Math.min(img1.width, img2.width)` and
`height = Math.min(img1.height, img2.height)`; the rest of that method is
DOM and canvas plumbing around the same pixelmatch call. -/
def compareModelsDims (img1 img2 : PNGImage) : ℕ × ℕ :=
  (min img1.width img2.width, min img1.height img2.height)

/-! ### Camera sync coordinator: CameraSync (src/services/CameraSync.js)

Camera and controls hold exact scalar state; the quaternion components are
carried as plain scalars (only copied, never computed with).  `getCamera`
and `getControls` of a viewer may return null, modelled with Option.  The
source also snapshots a distance and spherical angles from the source
camera (`Math.acos`, `Math.atan2`); those fields are written into the
snapshot object but never read by anything, so the dead values are omitted
from the model.  `syncFromSource` models the whole operation including its
deferred callbacks: the per-target timeout restores `enabled` to its prior
value (it sets true exactly when it was true before the disable), and the
final timeout clears the guard, so the modelled function returns the state
after all scheduled work has run. -/

/-- A three.js vector as exact scalars. -/
structure Vec3 where
  x : ℚ
  y : ℚ
  z : ℚ
deriving DecidableEq

/-- A three.js quaternion as exact scalars. -/
structure Quat where
  x : ℚ
  y : ℚ
  z : ℚ
  w : ℚ
deriving DecidableEq

/-- The camera state read and written by CameraSync. -/
structure Camera where
  position : Vec3
  quaternion : Quat
  fov : ℚ
  zoom : ℚ
deriving DecidableEq

/-- The controls state read and written by CameraSync. -/
structure Controls where
  target : Vec3
  enabled : Bool
deriving DecidableEq

/-- A registered viewer object; getCamera and getControls may return null. -/
structure Viewer where
  camera : Option Camera
  controls : Option Controls
deriving DecidableEq

/-- The static state of the CameraSync class: the `viewers` Map in insertion
order, and the `isSyncing` re-entrancy guard. -/
structure SyncState where
  viewers : List (String × Viewer)
  isSyncing : Bool
deriving DecidableEq

/-- `Map.get`: the value of the first (only) entry with the given key. -/
def mapGet (m : List (String × Viewer)) (id : String) : Option Viewer :=
  (m.find? (fun e => e.1 = id)).map (fun e => e.2)

/-- CameraSync.registerViewer: `Map.set` replaces the value in place if the
key exists, else appends a new entry. -/
def registerViewer (st : SyncState) (viewerObj : Viewer) (id : String) :
    SyncState :=
  if st.viewers.any (fun e => e.1 = id) then
    ⟨st.viewers.map (fun e => if e.1 = id then (id, viewerObj) else e),
      st.isSyncing⟩
  else
    ⟨st.viewers ++ [(id, viewerObj)], st.isSyncing⟩

/-- CameraSync.unregisterViewer: `Map.delete`, a no-op on an absent key. -/
def unregisterViewer (st : SyncState) (id : String) : SyncState :=
  ⟨st.viewers.filter (fun e => ¬ e.1 = id), st.isSyncing⟩

/-- CameraSync.syncFromSource, including its deferred callbacks (see the
section comment).  Guard set: return at once.  Source missing, or its
camera or controls null: clear the guard and return.  Otherwise snapshot
the source camera and controls target and copy them onto every other
registered viewer whose camera and controls are non-null; such a target
ends with the snapshot values and its controls `enabled` flag restored by
the deferred re-enable; the guard ends cleared by the final timeout. -/
def syncFromSource (st : SyncState) (sourceId : String) : SyncState :=
  if st.isSyncing then st
  else
    match mapGet st.viewers sourceId with
    | none => ⟨st.viewers, false⟩
    | some sourceViewer =>
      match sourceViewer.camera, sourceViewer.controls with
      | some sourceCamera, some sourceControls =>
        let viewers := st.viewers.map (fun e =>
          if e.1 = sourceId then e
          else
            match e.2.camera, e.2.controls with
            | some _, some targetControls =>
              (e.1, ⟨some ⟨sourceCamera.position, sourceCamera.quaternion,
                       sourceCamera.fov, sourceCamera.zoom⟩,
                     some ⟨sourceControls.target, targetControls.enabled⟩⟩)
            | _, _ => e)
        ⟨viewers, false⟩
      | _, _ => ⟨st.viewers, false⟩

/-! ### Helper lemmas -/

/-- The count component of a pixel-writing fold: initial count plus the
number of hit pixels in the iteration list. -/
theorem foldl_snd_of_writer {f : ((ℕ → ℚ) × ℕ) → ℕ → ((ℕ → ℚ) × ℕ)}
    {val : ℕ → ℕ → ℚ} {hit : ℕ → Bool} (H : IsPixelWriter f val hit) :
    ∀ (l : List ℕ) (st : (ℕ → ℚ) × ℕ),
      (l.foldl f st).2 = st.2 + l.countP hit := by
  intro l
  induction l with
  | nil => intro st; simp
  | cons a l ih =>
    intro st
    rw [List.foldl_cons, ih, H.2, List.countP_cons]
    cases hha : hit a <;> simp [hha] <;> omega

/-- The output component of a pixel-writing fold over `List.range n`, at a
byte index belonging to a pixel of the range. -/
theorem foldl_fst_of_writer {f : ((ℕ → ℚ) × ℕ) → ℕ → ((ℕ → ℚ) × ℕ)}
    {val : ℕ → ℕ → ℚ} {hit : ℕ → Bool} (H : IsPixelWriter f val hit) :
    ∀ (n : ℕ) (st : (ℕ → ℚ) × ℕ) (p k : ℕ), p < n → k < 4 →
      ((List.range n).foldl f st).1 (4*p + k) = val p k := by
  intro n
  induction n with
  | zero => intro st p k hp _; exact absurd hp (Nat.not_lt_zero p)
  | succ n ih =>
    intro st p k hp hk
    rw [List.range_succ, List.foldl_append, List.foldl_cons, List.foldl_nil]
    rcases Nat.lt_or_ge p n with h | h
    · rw [H.1]
      have hcond : ¬ (4*n ≤ 4*p + k ∧ 4*p + k < 4*n + 4) := by omega
      rw [if_neg hcond]
      exact ih _ p k h hk
    · have hpn : p = n := by omega
      subst hpn
      rw [H.1]
      have hcond : 4*p ≤ 4*p + k ∧ 4*p + k < 4*p + 4 := by omega
      rw [if_pos hcond]
      congr 1
      omega

/-- The pixelmatch loop body is a pixel writer for `pmVal` and `pmHit`. -/
theorem pmStep_isWriter (img1 img2 : ℕ → ℤ) (opts : PixelmatchOptions) :
    IsPixelWriter (pmStep img1 img2 opts) (pmVal img1 img2 opts)
      (pmHit img1 img2 opts) := by
  constructor
  · intro st p j
    by_cases hh : pmHit img1 img2 opts p = true <;>
      simp only [pmStep, pmVal, upd, hh, if_true, if_false,
        Bool.false_eq_true, Bool.true_eq_false] <;>
      split_ifs <;> first | rfl | omega
  · intro st p
    by_cases hh : pmHit img1 img2 opts p = true <;> simp [pmStep, hh]

/-- The simplePixelMatch loop body is a pixel writer for `spmVal` and
`spmHit`. -/
theorem spmStep_isWriter (img1 img2 : ℕ → ℤ) (threshold : ℚ) :
    IsPixelWriter (spmStep img1 img2 threshold) (spmVal img1 img2 threshold)
      (spmHit img1 img2 threshold) := by
  constructor
  · intro st p j
    by_cases hh : spmHit img1 img2 threshold p = true <;>
      simp only [spmStep, spmVal, upd, hh, if_true, if_false,
        Bool.false_eq_true, Bool.true_eq_false] <;>
      split_ifs <;> first | rfl | omega
  · intro st p
    by_cases hh : spmHit img1 img2 threshold p = true <;> simp [spmStep, hh]

/-- The decidable branch condition `diffExceeds` decides exactly the real
comparison the source computes with `Math.sqrt`. -/
theorem diffExceeds_iff_sqrt (dR dG dB : ℤ) (t : ℚ) :
    diffExceeds dR dG dB t = true ↔
      Real.sqrt (0.299 * (dR : ℝ)^2 + 0.587 * (dG : ℝ)^2
        + 0.114 * (dB : ℝ)^2) / 255 > (t : ℝ) := by
  have hiff : diffExceeds dR dG dB t = true ↔
      (t < 0 ∨ 65025000 * t^2
        < ((299 * dR^2 + 587 * dG^2 + 114 * dB^2 : ℤ) : ℚ)) := by
    simp [diffExceeds]
  rw [hiff]
  have hSval : (0.299 * (dR : ℝ)^2 + 0.587 * (dG : ℝ)^2 + 0.114 * (dB : ℝ)^2)
      = ((299 * dR^2 + 587 * dG^2 + 114 * dB^2 : ℤ) : ℝ) / 1000 := by
    push_cast
    norm_num
    ring
  have hS0 : (0:ℝ) ≤ 0.299 * (dR : ℝ)^2 + 0.587 * (dG : ℝ)^2
      + 0.114 * (dB : ℝ)^2 := by positivity
  constructor
  · rintro (ht | hq)
    · have ht2 : (t : ℝ) < 0 := by exact_mod_cast ht
      have h1 : (0:ℝ) ≤ Real.sqrt (0.299 * (dR : ℝ)^2 + 0.587 * (dG : ℝ)^2
          + 0.114 * (dB : ℝ)^2) / 255 := by positivity
      linarith
    · by_cases ht : t < 0
      · have ht2 : (t : ℝ) < 0 := by exact_mod_cast ht
        have h1 : (0:ℝ) ≤ Real.sqrt (0.299 * (dR : ℝ)^2 + 0.587 * (dG : ℝ)^2
            + 0.114 * (dB : ℝ)^2) / 255 := by positivity
        linarith
      · have ht0 : (0:ℝ) ≤ (t : ℝ) := by
          have := not_lt.mp ht
          exact_mod_cast this
        have hq2 : 65025000 * (t:ℝ)^2
            < ((299 * dR^2 + 587 * dG^2 + 114 * dB^2 : ℤ) : ℝ) := by
          exact_mod_cast hq
        rw [gt_iff_lt, lt_div_iff (by norm_num : (0:ℝ) < 255)]
        refine (Real.lt_sqrt (by positivity)).mpr ?_
        rw [hSval]
        nlinarith
  · intro hgt
    by_cases ht : t < 0
    · exact Or.inl ht
    · refine Or.inr ?_
      have ht0 : (0:ℝ) ≤ (t : ℝ) := by
        have := not_lt.mp ht
        exact_mod_cast this
      rw [gt_iff_lt, lt_div_iff (by norm_num : (0:ℝ) < 255)] at hgt
      have hsq := (Real.lt_sqrt (by positivity)).mp hgt
      rw [hSval] at hsq
      have hq2 : 65025000 * (t:ℝ)^2
          < ((299 * dR^2 + 587 * dG^2 + 114 * dB^2 : ℤ) : ℝ) := by
        nlinarith
      exact_mod_cast hq2

/-- Output characterization of `pixelmatch` at the four byte indices of a
pixel of the compared region. -/
theorem pixelmatch_out (img1 img2 : ℕ → ℤ) (output : ℕ → ℚ)
    (width height : ℕ) (opts : PixelmatchOptions) (p k : ℕ)
    (hp : p < width * height) (hk : k < 4) :
    (pixelmatch img1 img2 output width height opts).1 (4*p + k)
      = pmVal img1 img2 opts p k :=
  foldl_fst_of_writer (pmStep_isWriter img1 img2 opts) (width * height)
    (output, 0) p k hp hk

/-- Count characterization of `pixelmatch`: the returned count is the number
of pixels of the compared region whose weighted distance exceeds the
threshold. -/
theorem pixelmatch_count (img1 img2 : ℕ → ℤ) (output : ℕ → ℚ)
    (width height : ℕ) (opts : PixelmatchOptions) :
    (pixelmatch img1 img2 output width height opts).2
      = (List.range (width * height)).countP (pmHit img1 img2 opts) := by
  rw [pixelmatch,
    foldl_snd_of_writer (pmStep_isWriter img1 img2 opts) _ (output, 0)]
  simp

/-- C1: for every pair of RGBA buffers and every pixel index of the compared
region, window.pixelmatch computes the perceptual distance
sqrt(0.299*dR^2 + 0.587*dG^2 + 0.114*dB^2)/255 over the R/G/B deltas; when
that distance exceeds the threshold it writes the solid diffColor and the
pixel is counted as mismatched, otherwise it writes the blend
255*(1-alpha) + channel*alpha of the img1 pixel toward white, and in both
branches the output alpha byte is 255 regardless of input alpha. -/
theorem pixelmatch_pixel_behavior
    (img1 img2 : ℕ → ℤ) (output : ℕ → ℚ) (width height : ℕ)
    (opts : PixelmatchOptions) (p : ℕ) (hp : p < width * height) :
    ((pixelmatch img1 img2 output width height opts).2
        = (List.range (width * height)).countP (pmHit img1 img2 opts))
    ∧ (pmHit img1 img2 opts p = true ↔
        Real.sqrt (0.299 * ((img1 (4*p) : ℝ) - (img2 (4*p) : ℝ))^2
          + 0.587 * ((img1 (4*p+1) : ℝ) - (img2 (4*p+1) : ℝ))^2
          + 0.114 * ((img1 (4*p+2) : ℝ) - (img2 (4*p+2) : ℝ))^2) / 255
          > (opts.threshold : ℝ))
    ∧ (pmHit img1 img2 opts p = true →
        (pixelmatch img1 img2 output width height opts).1 (4*p)
            = opts.diffColor.1
          ∧ (pixelmatch img1 img2 output width height opts).1 (4*p+1)
            = opts.diffColor.2.1
          ∧ (pixelmatch img1 img2 output width height opts).1 (4*p+2)
            = opts.diffColor.2.2)
    ∧ (pmHit img1 img2 opts p = false →
        (pixelmatch img1 img2 output width height opts).1 (4*p)
            = 255*(1-opts.alpha) + (img1 (4*p) : ℚ)*opts.alpha
          ∧ (pixelmatch img1 img2 output width height opts).1 (4*p+1)
            = 255*(1-opts.alpha) + (img1 (4*p+1) : ℚ)*opts.alpha
          ∧ (pixelmatch img1 img2 output width height opts).1 (4*p+2)
            = 255*(1-opts.alpha) + (img1 (4*p+2) : ℚ)*opts.alpha)
    ∧ (pixelmatch img1 img2 output width height opts).1 (4*p+3) = 255 := by
  refine ⟨pixelmatch_count img1 img2 output width height opts, ?_, ?_, ?_, ?_⟩
  · have h := diffExceeds_iff_sqrt (img1 (4*p) - img2 (4*p))
      (img1 (4*p+1) - img2 (4*p+1)) (img1 (4*p+2) - img2 (4*p+2))
      opts.threshold
    push_cast at h
    exact h
  · intro hh
    refine ⟨?_, ?_, ?_⟩ <;>
      rw [show (4*p : ℕ) = 4*p + 0 from rfl] <;>
      first
      | rw [pixelmatch_out img1 img2 output width height opts p 0 hp
            (by norm_num)]
      | rw [pixelmatch_out img1 img2 output width height opts p 1 hp
            (by norm_num)]
      | rw [pixelmatch_out img1 img2 output width height opts p 2 hp
            (by norm_num)]
    all_goals simp [pmVal, hh]
  · intro hh
    refine ⟨?_, ?_, ?_⟩ <;>
      rw [show (4*p : ℕ) = 4*p + 0 from rfl] <;>
      first
      | rw [pixelmatch_out img1 img2 output width height opts p 0 hp
            (by norm_num)]
      | rw [pixelmatch_out img1 img2 output width height opts p 1 hp
            (by norm_num)]
      | rw [pixelmatch_out img1 img2 output width height opts p 2 hp
            (by norm_num)]
    all_goals simp [pmVal, hh]
  · rw [pixelmatch_out img1 img2 output width height opts p 3 hp
      (by norm_num)]
    rcases hh : pmHit img1 img2 opts p <;> simp [pmVal, hh]

/-- Witness for C1: a 1x1 comparison of a black buffer against a white
buffer with the default options, at pixel 0. -/
theorem pixelmatch_pixel_behavior_witness :
    ((0:ℕ) < 1 * 1) ∧
    (((pixelmatch (fun _ => 0) (fun _ => 255) (fun _ => 0) 1 1
          pixelmatchDefaults).2
        = (List.range (1 * 1)).countP
            (pmHit (fun _ => 0) (fun _ => 255) pixelmatchDefaults))
    ∧ (pmHit (fun _ => 0) (fun _ => 255) pixelmatchDefaults 0 = true ↔
        Real.sqrt (0.299 * (((0:ℤ) : ℝ) - ((255:ℤ) : ℝ))^2
          + 0.587 * (((0:ℤ) : ℝ) - ((255:ℤ) : ℝ))^2
          + 0.114 * (((0:ℤ) : ℝ) - ((255:ℤ) : ℝ))^2) / 255
          > (pixelmatchDefaults.threshold : ℝ))
    ∧ (pmHit (fun _ => 0) (fun _ => 255) pixelmatchDefaults 0 = true →
        (pixelmatch (fun _ => 0) (fun _ => 255) (fun _ => 0) 1 1
            pixelmatchDefaults).1 (4*0)
          = pixelmatchDefaults.diffColor.1
        ∧ (pixelmatch (fun _ => 0) (fun _ => 255) (fun _ => 0) 1 1
            pixelmatchDefaults).1 (4*0+1)
          = pixelmatchDefaults.diffColor.2.1
        ∧ (pixelmatch (fun _ => 0) (fun _ => 255) (fun _ => 0) 1 1
            pixelmatchDefaults).1 (4*0+2)
          = pixelmatchDefaults.diffColor.2.2)
    ∧ (pmHit (fun _ => 0) (fun _ => 255) pixelmatchDefaults 0 = false →
        (pixelmatch (fun _ => 0) (fun _ => 255) (fun _ => 0) 1 1
            pixelmatchDefaults).1 (4*0)
          = 255*(1-pixelmatchDefaults.alpha)
            + (((0:ℤ)) : ℚ)*pixelmatchDefaults.alpha
        ∧ (pixelmatch (fun _ => 0) (fun _ => 255) (fun _ => 0) 1 1
            pixelmatchDefaults).1 (4*0+1)
          = 255*(1-pixelmatchDefaults.alpha)
            + (((0:ℤ)) : ℚ)*pixelmatchDefaults.alpha
        ∧ (pixelmatch (fun _ => 0) (fun _ => 255) (fun _ => 0) 1 1
            pixelmatchDefaults).1 (4*0+2)
          = 255*(1-pixelmatchDefaults.alpha)
            + (((0:ℤ)) : ℚ)*pixelmatchDefaults.alpha)
    ∧ (pixelmatch (fun _ => 0) (fun _ => 255) (fun _ => 0) 1 1
        pixelmatchDefaults).1 (4*0+3) = 255) :=
  ⟨by decide,
    pixelmatch_pixel_behavior (fun _ => 0) (fun _ => 255) (fun _ => 0) 1 1
      pixelmatchDefaults 0 (by decide)⟩

/-- C5 counterexample: two identical black pixels at threshold 0 have
perceptual distance exactly equal to the threshold, yet window.pixelmatch
classifies the pixel as not different (the returned mismatch count of the
1x1 comparison is 0, where a distance >= threshold classification would
count 1). -/
theorem pixelmatch_eq_threshold_not_different :
    (Real.sqrt (0.299 * (((0:ℤ) : ℝ) - ((0:ℤ) : ℝ))^2
        + 0.587 * (((0:ℤ) : ℝ) - ((0:ℤ) : ℝ))^2
        + 0.114 * (((0:ℤ) : ℝ) - ((0:ℤ) : ℝ))^2) / 255
      = (((0:ℚ) : ℝ)))
    ∧ (pixelmatch (fun _ => 0) (fun _ => 0) (fun _ => 0) 1 1
        ⟨0, false, 1/10, (255, 0, 0)⟩).2 = 0 := by
  constructor
  · simp
  · rw [pixelmatch_count]
    norm_num [List.range_succ, List.countP_cons, pmHit, diffExceeds]

/-- C5 amended: the comparator classifies a pixel as different exactly when
its normalized perceptual distance strictly exceeds the threshold (a pixel
whose distance equals the threshold is classified as not different), and
the returned count is the number of such pixels. -/
theorem pixelmatch_classification_strict
    (img1 img2 : ℕ → ℤ) (output : ℕ → ℚ) (width height : ℕ)
    (opts : PixelmatchOptions) :
    ((pixelmatch img1 img2 output width height opts).2
        = (List.range (width * height)).countP (pmHit img1 img2 opts))
    ∧ ∀ p : ℕ, pmHit img1 img2 opts p = true ↔
        Real.sqrt (0.299 * ((img1 (4*p) : ℝ) - (img2 (4*p) : ℝ))^2
          + 0.587 * ((img1 (4*p+1) : ℝ) - (img2 (4*p+1) : ℝ))^2
          + 0.114 * ((img1 (4*p+2) : ℝ) - (img2 (4*p+2) : ℝ))^2) / 255
          > (opts.threshold : ℝ) := by
  refine ⟨pixelmatch_count img1 img2 output width height opts, fun p => ?_⟩
  have h := diffExceeds_iff_sqrt (img1 (4*p) - img2 (4*p))
    (img1 (4*p+1) - img2 (4*p+1)) (img1 (4*p+2) - img2 (4*p+2))
    opts.threshold
  push_cast at h
  exact h

/-- C6: for fixed buffers, the mismatch count of window.pixelmatch is
non-increasing in the threshold: raising the threshold never increases the
count. -/
theorem pixelmatch_count_antitone_threshold
    (img1 img2 : ℕ → ℤ) (output : ℕ → ℚ) (width height : ℕ)
    (includeAA : Bool) (alpha : ℚ) (diffColor : ℚ × ℚ × ℚ)
    (t1 t2 : ℚ) (h0 : 0 ≤ t1) (h12 : t1 ≤ t2) (h1 : t2 ≤ 1) :
    (pixelmatch img1 img2 output width height
        ⟨t2, includeAA, alpha, diffColor⟩).2
      ≤ (pixelmatch img1 img2 output width height
        ⟨t1, includeAA, alpha, diffColor⟩).2 := by
  rw [pixelmatch_count, pixelmatch_count]
  apply List.countP_mono_left
  intro p _ hp
  simp only [pmHit, diffExceeds, Bool.or_eq_true, decide_eq_true_eq] at hp ⊢
  rcases hp with hneg | hlt
  · exact absurd hneg (by linarith)
  · right
    nlinarith

/-- Witness for C6: black vs white 1x1 buffers, thresholds 0 and 1/2. -/
theorem pixelmatch_count_antitone_threshold_witness :
    ((0:ℚ) ≤ 0) ∧ ((0:ℚ) ≤ 1/2) ∧ ((1/2:ℚ) ≤ 1) ∧
    (pixelmatch (fun _ => 0) (fun _ => 255) (fun _ => 0) 1 1
        ⟨1/2, false, 1/10, (255, 0, 0)⟩).2
      ≤ (pixelmatch (fun _ => 0) (fun _ => 255) (fun _ => 0) 1 1
        ⟨0, false, 1/10, (255, 0, 0)⟩).2 :=
  ⟨by norm_num, by norm_num, by norm_num,
    pixelmatch_count_antitone_threshold (fun _ => 0) (fun _ => 255)
      (fun _ => 0) 1 1 false (1/10) (255, 0, 0) 0 (1/2)
      (by norm_num) (by norm_num) (by norm_num)⟩

/-- Output characterization of ComparisonService.simplePixelMatch at the
four byte indices of a pixel of the iterated range. -/
theorem simplePixelMatch_out (img1 img2 : ImageBuffer) (output : ℕ → ℚ)
    (width height : ℕ) (options : Option (Option ℚ)) (p k : ℕ)
    (hp : p < (img1.length + 3) / 4) (hk : k < 4) :
    (simplePixelMatch img1 img2 output width height options).1 (4*p + k)
      = spmVal img1.data img2.data (csThreshold options) p k :=
  foldl_fst_of_writer (spmStep_isWriter img1.data img2.data
    (csThreshold options)) ((img1.length + 3) / 4) (output, 0) p k hp hk

/-- Count characterization of ComparisonService.simplePixelMatch. -/
theorem simplePixelMatch_count (img1 img2 : ImageBuffer) (output : ℕ → ℚ)
    (width height : ℕ) (options : Option (Option ℚ)) :
    (simplePixelMatch img1 img2 output width height options).2
      = (List.range ((img1.length + 3) / 4)).countP
          (spmHit img1.data img2.data (csThreshold options)) := by
  rw [simplePixelMatch, simplePixelMatchCore,
    foldl_snd_of_writer (spmStep_isWriter img1.data img2.data
      (csThreshold options)) _ (output, 0)]
  simp

/-- C8 counterexample: with the fallback comparator, a non-differing pixel
whose input alpha is 0 is written back with alpha 255, so the written pixel
is not the original first-image pixel.  Input: img1 = img2 = one RGBA pixel
(10, 20, 30, 0), default options. -/
theorem simplePixelMatch_not_original_pixel :
    (spmHit
        (fun i => if i = 0 then 10 else if i = 1 then 20
          else if i = 2 then 30 else 0)
        (fun i => if i = 0 then 10 else if i = 1 then 20
          else if i = 2 then 30 else 0)
        (csThreshold none) 0 = false)
    ∧ (simplePixelMatch
        ⟨fun i => if i = 0 then 10 else if i = 1 then 20
          else if i = 2 then 30 else 0, 4⟩
        ⟨fun i => if i = 0 then 10 else if i = 1 then 20
          else if i = 2 then 30 else 0, 4⟩
        (fun _ => 0) 1 1 none).1 3 = 255
    ∧ ((if (3:ℕ) = 0 then (10:ℤ) else if (3:ℕ) = 1 then 20
        else if (3:ℕ) = 2 then 30 else 0) = 0)
    ∧ ((255 : ℚ) ≠ ((0:ℤ) : ℚ)) := by
  have hhit : spmHit
      (fun i => if i = 0 then 10 else if i = 1 then 20
        else if i = 2 then 30 else 0)
      (fun i => if i = 0 then 10 else if i = 1 then 20
        else if i = 2 then 30 else 0)
      (csThreshold none) 0 = false := by
    norm_num [spmHit, csThreshold]
  refine ⟨hhit, ?_, by norm_num, by norm_num⟩
  have h := simplePixelMatch_out
    ⟨fun i => if i = 0 then 10 else if i = 1 then 20
      else if i = 2 then 30 else 0, 4⟩
    ⟨fun i => if i = 0 then 10 else if i = 1 then 20
      else if i = 2 then 30 else 0, 4⟩
    (fun _ => 0) 1 1 none 0 3 (by norm_num) (by norm_num)
  simpa [spmVal, hhit] using h

/-- C8 amended: when the primary perceptual implementation is unavailable,
processImageComparison selects the fallback simplePixelMatch with threshold
0.05, and the fallback classifies a pixel as different exactly when
(|dR| + |dG| + |dB|) / 765 strictly exceeds the threshold, writing opaque
red for different pixels and, otherwise, the original first-image RGB
channels with the alpha byte forced to 255. -/
theorem processImageComparison_fallback_behavior :
    (∀ (data1 data2 : ImageBuffer) (diffData : ℕ → ℚ) (width height : ℕ),
        processImageComparisonPixels false data1 data2 diffData width height
          = simplePixelMatch data1 data2 diffData width height
              (some (some (1/20))))
    ∧ ∀ (img1 img2 : ImageBuffer) (output : ℕ → ℚ) (width height : ℕ)
        (options : Option (Option ℚ)) (p : ℕ),
        p < (img1.length + 3) / 4 →
        ((spmHit img1.data img2.data (csThreshold options) p = true ↔
            ((|img1.data (4*p) - img2.data (4*p)|
              + |img1.data (4*p+1) - img2.data (4*p+1)|
              + |img1.data (4*p+2) - img2.data (4*p+2)| : ℤ) : ℚ) / 765
              > csThreshold options)
        ∧ (spmHit img1.data img2.data (csThreshold options) p = true →
            (simplePixelMatch img1 img2 output width height options).1 (4*p)
              = 255
            ∧ (simplePixelMatch img1 img2 output width height options).1
                (4*p+1) = 0
            ∧ (simplePixelMatch img1 img2 output width height options).1
                (4*p+2) = 0)
        ∧ (spmHit img1.data img2.data (csThreshold options) p = false →
            (simplePixelMatch img1 img2 output width height options).1 (4*p)
              = (img1.data (4*p) : ℚ)
            ∧ (simplePixelMatch img1 img2 output width height options).1
                (4*p+1) = (img1.data (4*p+1) : ℚ)
            ∧ (simplePixelMatch img1 img2 output width height options).1
                (4*p+2) = (img1.data (4*p+2) : ℚ))
        ∧ (simplePixelMatch img1 img2 output width height options).1 (4*p+3)
            = 255
        ∧ (simplePixelMatch img1 img2 output width height options).2
            = (List.range ((img1.length + 3) / 4)).countP
                (spmHit img1.data img2.data (csThreshold options))) := by
  constructor
  · intro data1 data2 diffData width height
    rfl
  · intro img1 img2 output width height options p hp
    refine ⟨?_, ?_, ?_, ?_,
      simplePixelMatch_count img1 img2 output width height options⟩
    · simp [spmHit]
    · intro hh
      refine ⟨?_, ?_, ?_⟩ <;>
        rw [show (4*p : ℕ) = 4*p + 0 from rfl] <;>
        first
        | rw [simplePixelMatch_out img1 img2 output width height options p 0
              hp (by norm_num)]
        | rw [simplePixelMatch_out img1 img2 output width height options p 1
              hp (by norm_num)]
        | rw [simplePixelMatch_out img1 img2 output width height options p 2
              hp (by norm_num)]
      all_goals simp [spmVal, hh]
    · intro hh
      refine ⟨?_, ?_, ?_⟩ <;>
        rw [show (4*p : ℕ) = 4*p + 0 from rfl] <;>
        first
        | rw [simplePixelMatch_out img1 img2 output width height options p 0
              hp (by norm_num)]
        | rw [simplePixelMatch_out img1 img2 output width height options p 1
              hp (by norm_num)]
        | rw [simplePixelMatch_out img1 img2 output width height options p 2
              hp (by norm_num)]
      all_goals simp [spmVal, hh]
    · rw [simplePixelMatch_out img1 img2 output width height options p 3 hp
        (by norm_num)]
      rcases hh : spmHit img1.data img2.data (csThreshold options) p <;>
        simp [spmVal, hh]

/-- Witness for C8 amended: a 1x1 black-vs-white fallback comparison at
pixel 0 with default options. -/
theorem processImageComparison_fallback_behavior_witness :
    ((0:ℕ) < (((⟨fun _ => 0, 4⟩ : ImageBuffer)).length + 3) / 4) ∧
    ((spmHit (fun _ => (0:ℤ)) (fun _ => (255:ℤ)) (csThreshold none) 0 = true ↔
        ((|(0:ℤ) - 255| + |(0:ℤ) - 255| + |(0:ℤ) - 255| : ℤ) : ℚ) / 765
          > csThreshold none)
    ∧ (spmHit (fun _ => (0:ℤ)) (fun _ => (255:ℤ)) (csThreshold none) 0 = true →
        (simplePixelMatch ⟨fun _ => 0, 4⟩ ⟨fun _ => 255, 4⟩ (fun _ => 0) 1 1
            none).1 (4*0) = 255
        ∧ (simplePixelMatch ⟨fun _ => 0, 4⟩ ⟨fun _ => 255, 4⟩ (fun _ => 0) 1 1
            none).1 (4*0+1) = 0
        ∧ (simplePixelMatch ⟨fun _ => 0, 4⟩ ⟨fun _ => 255, 4⟩ (fun _ => 0) 1 1
            none).1 (4*0+2) = 0)
    ∧ (spmHit (fun _ => (0:ℤ)) (fun _ => (255:ℤ)) (csThreshold none) 0 = false →
        (simplePixelMatch ⟨fun _ => 0, 4⟩ ⟨fun _ => 255, 4⟩ (fun _ => 0) 1 1
            none).1 (4*0) = ((0:ℤ) : ℚ)
        ∧ (simplePixelMatch ⟨fun _ => 0, 4⟩ ⟨fun _ => 255, 4⟩ (fun _ => 0) 1 1
            none).1 (4*0+1) = ((0:ℤ) : ℚ)
        ∧ (simplePixelMatch ⟨fun _ => 0, 4⟩ ⟨fun _ => 255, 4⟩ (fun _ => 0) 1 1
            none).1 (4*0+2) = ((0:ℤ) : ℚ))
    ∧ (simplePixelMatch ⟨fun _ => 0, 4⟩ ⟨fun _ => 255, 4⟩ (fun _ => 0) 1 1
        none).1 (4*0+3) = 255
    ∧ (simplePixelMatch ⟨fun _ => 0, 4⟩ ⟨fun _ => 255, 4⟩ (fun _ => 0) 1 1
        none).2
      = (List.range ((((⟨fun _ => 0, 4⟩ : ImageBuffer)).length + 3) / 4)).countP
          (spmHit (fun _ => (0:ℤ)) (fun _ => (255:ℤ)) (csThreshold none))) :=
  ⟨by decide,
    processImageComparison_fallback_behavior.2 ⟨fun _ => 0, 4⟩
      ⟨fun _ => 255, 4⟩ (fun _ => 0) 1 1 none 0 (by decide)⟩

/-- C9: simplePixelMatch never reads its width and height parameters: both
copies return the same output buffer and count for any declared dimensions,
the count being determined by the buffers and threshold alone; and on a
16-byte img1 declared as 1x1 against a white img2, the returned count is 4,
which exceeds width * height = 1. -/
theorem simplePixelMatch_ignores_dimensions :
    (∀ (img1 img2 : ImageBuffer) (output : ℕ → ℚ) (w1 h1 w2 h2 : ℕ)
        (options : Option (Option ℚ)),
        simplePixelMatch img1 img2 output w1 h1 options
          = simplePixelMatch img1 img2 output w2 h2 options)
    ∧ (∀ (img1 img2 : ImageBuffer) (output : ℕ → ℚ) (w1 h1 w2 h2 : ℕ)
        (options : Option (Option ℚ)),
        scriptSimplePixelMatch img1 img2 output w1 h1 options
          = scriptSimplePixelMatch img1 img2 output w2 h2 options)
    ∧ ((simplePixelMatch ⟨fun _ => 0, 16⟩ ⟨fun _ => 255, 16⟩ (fun _ => 0)
          1 1 none).2 = 4
      ∧ 4 > 1 * 1) := by
  refine ⟨fun _ _ _ _ _ _ _ _ => rfl, fun _ _ _ _ _ _ _ _ => rfl, ?_, ?_⟩
  · rw [simplePixelMatch_count]
    norm_num [List.range_succ, List.countP_cons, spmHit, csThreshold]
  · norm_num

/-- C10: an explicit threshold of 0 is discarded by the falsy default
`options?.threshold || 0.1` of ComparisonService.simplePixelMatch, so a call
with threshold 0 returns exactly the same output buffer and count as a call
with threshold 0.1. -/
theorem simplePixelMatch_zero_threshold_discarded :
    ∀ (img1 img2 : ImageBuffer) (output : ℕ → ℚ) (width height : ℕ),
      simplePixelMatch img1 img2 output width height (some (some 0))
        = simplePixelMatch img1 img2 output width height
            (some (some (1/10))) := by
  intro img1 img2 output width height
  norm_num [simplePixelMatch, csThreshold]

/-- C4: on inputs whose dimensions differ, compareImages operates on the
overlapping region, passing width = min(widthA, widthB) and
height = min(heightA, heightB) to the pixel comparator instead of failing,
and reports totalPixels as their product; ModelComparator.compareModels
selects the same minimum dimensions; in particular a 4x4 image against a
2x2 image reports totalPixels = 4. -/
theorem compareImages_crops_to_min :
    (∀ (pm : (ℕ → ℤ) → (ℕ → ℤ) → (ℕ → ℚ) → ℕ → ℕ → NpmOptions →
          ((ℕ → ℚ) × ℕ))
        (img1 img2 : PNGImage) (threshold : ℚ),
        (compareImages pm img1 img2 threshold).width
            = min img1.width img2.width
        ∧ (compareImages pm img1 img2 threshold).height
            = min img1.height img2.height
        ∧ (compareImages pm img1 img2 threshold).totalPixels
            = min img1.width img2.width * min img1.height img2.height
        ∧ compareModelsDims img1 img2
            = (min img1.width img2.width, min img1.height img2.height))
    ∧ ∀ (pm : (ℕ → ℤ) → (ℕ → ℤ) → (ℕ → ℚ) → ℕ → ℕ → NpmOptions →
          ((ℕ → ℚ) × ℕ))
        (d1 d2 : ℕ → ℤ) (threshold : ℚ),
        (compareImages pm ⟨4, 4, d1⟩ ⟨2, 2, d2⟩ threshold).totalPixels = 4 :=
  ⟨fun _ _ _ _ => ⟨rfl, rfl, rfl, rfl⟩, fun _ _ _ _ => rfl⟩

/-- C2: while the re-entrancy guard `isSyncing` is set, syncFromSource
returns immediately: the whole registry state, hence every registered
viewer camera and controls and the guard itself, is unchanged. -/
theorem syncFromSource_guarded_noop (st : SyncState) (sourceId : String)
    (h : st.isSyncing = true) :
    syncFromSource st sourceId = st := by
  simp [syncFromSource, h]

/-- Witness for C2: viewports "a" and "b" registered while a sync is
flagged in progress; calling syncFromSource "a" changes nothing. -/
theorem syncFromSource_guarded_noop_witness :
    (SyncState.mk
      [("a", ⟨some ⟨⟨0,0,5⟩, ⟨0,0,0,1⟩, 45, 1⟩, some ⟨⟨0,0,0⟩, true⟩⟩),
       ("b", ⟨some ⟨⟨1,2,3⟩, ⟨0,0,0,1⟩, 60, 2⟩, some ⟨⟨4,5,6⟩, true⟩⟩)]
      true).isSyncing = true
    ∧ syncFromSource
        (SyncState.mk
          [("a", ⟨some ⟨⟨0,0,5⟩, ⟨0,0,0,1⟩, 45, 1⟩, some ⟨⟨0,0,0⟩, true⟩⟩),
           ("b", ⟨some ⟨⟨1,2,3⟩, ⟨0,0,0,1⟩, 60, 2⟩, some ⟨⟨4,5,6⟩, true⟩⟩)]
          true) "a"
      = SyncState.mk
          [("a", ⟨some ⟨⟨0,0,5⟩, ⟨0,0,0,1⟩, 45, 1⟩, some ⟨⟨0,0,0⟩, true⟩⟩),
           ("b", ⟨some ⟨⟨1,2,3⟩, ⟨0,0,0,1⟩, 60, 2⟩, some ⟨⟨4,5,6⟩, true⟩⟩)]
          true :=
  ⟨rfl, syncFromSource_guarded_noop _ "a" rfl⟩

/-- C3: with the guard clear and a registered source viewer with non-null
camera and controls, after syncFromSource completes (the deferred re-enable
restoring each target `enabled` flag to its prior value), every other
registered viewer with non-null camera and controls carries the snapshotted
source camera position, quaternion, fov and zoom and the source controls
target. -/
theorem syncFromSource_propagates
    (st : SyncState) (sourceId : String) (sv : Viewer)
    (sc : Camera) (sctl : Controls)
    (hg : st.isSyncing = false)
    (hsv : mapGet st.viewers sourceId = some sv)
    (hc : sv.camera = some sc) (hctl : sv.controls = some sctl)
    (tid : String) (tv : Viewer) (htv : (tid, tv) ∈ st.viewers)
    (hne : tid ≠ sourceId) (tc : Camera) (tctl : Controls)
    (htc : tv.camera = some tc) (htctl : tv.controls = some tctl) :
    (tid, (⟨some ⟨sc.position, sc.quaternion, sc.fov, sc.zoom⟩,
        some ⟨sctl.target, tctl.enabled⟩⟩ : Viewer))
      ∈ (syncFromSource st sourceId).viewers := by
  simp only [syncFromSource, hg, Bool.false_eq_true, if_false, hsv, hc, hctl]
  refine List.mem_map.mpr ⟨(tid, tv), htv, ?_⟩
  simp [hne, htc, htctl]

/-- Witness for C3: source "a" at position (0,0,5) with fov 45, target
viewport "b"; after the sync, "b" carries position (0,0,5) and fov 45. -/
theorem syncFromSource_propagates_witness :
    (SyncState.mk
      [("a", ⟨some ⟨⟨0,0,5⟩, ⟨0,0,0,1⟩, 45, 1⟩, some ⟨⟨0,0,0⟩, true⟩⟩),
       ("b", ⟨some ⟨⟨1,2,3⟩, ⟨0,0,0,1⟩, 60, 2⟩, some ⟨⟨4,5,6⟩, true⟩⟩)]
      false).isSyncing = false
    ∧ mapGet
        [("a", (⟨some ⟨⟨0,0,5⟩, ⟨0,0,0,1⟩, 45, 1⟩,
            some ⟨⟨0,0,0⟩, true⟩⟩ : Viewer)),
         ("b", ⟨some ⟨⟨1,2,3⟩, ⟨0,0,0,1⟩, 60, 2⟩, some ⟨⟨4,5,6⟩, true⟩⟩)]
        "a"
      = some ⟨some ⟨⟨0,0,5⟩, ⟨0,0,0,1⟩, 45, 1⟩, some ⟨⟨0,0,0⟩, true⟩⟩
    ∧ ("b", (⟨some ⟨⟨1,2,3⟩, ⟨0,0,0,1⟩, 60, 2⟩,
          some ⟨⟨4,5,6⟩, true⟩⟩ : Viewer))
        ∈ (SyncState.mk
            [("a", ⟨some ⟨⟨0,0,5⟩, ⟨0,0,0,1⟩, 45, 1⟩,
                some ⟨⟨0,0,0⟩, true⟩⟩),
             ("b", ⟨some ⟨⟨1,2,3⟩, ⟨0,0,0,1⟩, 60, 2⟩,
                some ⟨⟨4,5,6⟩, true⟩⟩)]
            false).viewers
    ∧ ("b" : String) ≠ "a"
    ∧ ("b", (⟨some ⟨⟨0,0,5⟩, ⟨0,0,0,1⟩, 45, 1⟩,
          some ⟨⟨0,0,0⟩, true⟩⟩ : Viewer))
        ∈ (syncFromSource
            (SyncState.mk
              [("a", ⟨some ⟨⟨0,0,5⟩, ⟨0,0,0,1⟩, 45, 1⟩,
                  some ⟨⟨0,0,0⟩, true⟩⟩),
               ("b", ⟨some ⟨⟨1,2,3⟩, ⟨0,0,0,1⟩, 60, 2⟩,
                  some ⟨⟨4,5,6⟩, true⟩⟩)]
              false) "a").viewers :=
  ⟨rfl, rfl, by simp, by decide,
    syncFromSource_propagates
      (SyncState.mk
        [("a", ⟨some ⟨⟨0,0,5⟩, ⟨0,0,0,1⟩, 45, 1⟩, some ⟨⟨0,0,0⟩, true⟩⟩),
         ("b", ⟨some ⟨⟨1,2,3⟩, ⟨0,0,0,1⟩, 60, 2⟩, some ⟨⟨4,5,6⟩, true⟩⟩)]
        false)
      "a"
      ⟨some ⟨⟨0,0,5⟩, ⟨0,0,0,1⟩, 45, 1⟩, some ⟨⟨0,0,0⟩, true⟩⟩
      ⟨⟨0,0,5⟩, ⟨0,0,0,1⟩, 45, 1⟩
      ⟨⟨0,0,0⟩, true⟩ rfl rfl rfl rfl "b"
      ⟨some ⟨⟨1,2,3⟩, ⟨0,0,0,1⟩, 60, 2⟩, some ⟨⟨4,5,6⟩, true⟩⟩
      (by simp) (by decide) ⟨⟨1,2,3⟩, ⟨0,0,0,1⟩, 60, 2⟩ ⟨⟨4,5,6⟩, true⟩
      rfl rfl⟩

/-- C7 counterexample: in a registry state whose guard is already set, a
call with an unregistered id returns with the guard still set, so it does
not clear the re-entrancy guard as claimed for every registry state (the
guard-set early return leaves it untouched). -/
theorem syncFromSource_guard_set_stays_set :
    mapGet (SyncState.mk [] true).viewers "x" = none
    ∧ (syncFromSource ⟨[], true⟩ "x").isSyncing = true :=
  ⟨rfl, rfl⟩

/-- C7 amended: when the guard is clear, calling syncFromSource with an
unregistered id leaves the state exactly unchanged (the transiently set
guard is cleared again, no viewer is mutated, and being a total function
the model raises no exception); when the guard is set the call returns
immediately with the state unchanged (see the C2 theorem); and
unregistering an absent id is a no-op. -/
theorem syncFromSource_missing_source_noop
    (st : SyncState) (sourceId : String)
    (hg : st.isSyncing = false)
    (hnone : mapGet st.viewers sourceId = none) :
    syncFromSource st sourceId = st
    ∧ (∀ id2 : String, mapGet st.viewers id2 = none →
        unregisterViewer st id2 = st) := by
  obtain ⟨vs, sy⟩ := st
  simp only at hg
  subst hg
  constructor
  · simp [syncFromSource, hnone]
  · intro id2 h2
    simp only [mapGet, Option.map_eq_none'] at h2
    rw [List.find?_eq_none] at h2
    simp only [unregisterViewer]
    congr 1
    exact List.filter_eq_self.mpr (fun a ha => by simpa using h2 a ha)

/-- Witness for C7 amended: viewport "a" registered, guard clear; calling
syncFromSource "b" after "b" was never registered (equivalently, after it
was unregistered) changes nothing, and unregistering an absent id is a
no-op. -/
theorem syncFromSource_missing_source_noop_witness :
    (SyncState.mk
      [("a", ⟨some ⟨⟨0,0,5⟩, ⟨0,0,0,1⟩, 45, 1⟩, some ⟨⟨0,0,0⟩, true⟩⟩)]
      false).isSyncing = false
    ∧ mapGet
        [("a", (⟨some ⟨⟨0,0,5⟩, ⟨0,0,0,1⟩, 45, 1⟩,
            some ⟨⟨0,0,0⟩, true⟩⟩ : Viewer))] "b" = none
    ∧ (syncFromSource
        (SyncState.mk
          [("a", ⟨some ⟨⟨0,0,5⟩, ⟨0,0,0,1⟩, 45, 1⟩, some ⟨⟨0,0,0⟩, true⟩⟩)]
          false) "b"
      = SyncState.mk
          [("a", ⟨some ⟨⟨0,0,5⟩, ⟨0,0,0,1⟩, 45, 1⟩, some ⟨⟨0,0,0⟩, true⟩⟩)]
          false
    ∧ (∀ id2 : String,
        mapGet (SyncState.mk
          [("a", ⟨some ⟨⟨0,0,5⟩, ⟨0,0,0,1⟩, 45, 1⟩, some ⟨⟨0,0,0⟩, true⟩⟩)]
          false).viewers id2 = none →
        unregisterViewer
          (SyncState.mk
            [("a", ⟨some ⟨⟨0,0,5⟩, ⟨0,0,0,1⟩, 45, 1⟩,
                some ⟨⟨0,0,0⟩, true⟩⟩)]
            false) id2
          = SyncState.mk
              [("a", ⟨some ⟨⟨0,0,5⟩, ⟨0,0,0,1⟩, 45, 1⟩,
                  some ⟨⟨0,0,0⟩, true⟩⟩)]
              false)) :=
  ⟨rfl, rfl,
    syncFromSource_missing_source_noop
      (SyncState.mk
        [("a", ⟨some ⟨⟨0,0,5⟩, ⟨0,0,0,1⟩, 45, 1⟩, some ⟨⟨0,0,0⟩, true⟩⟩)]
        false) "b" rfl rfl⟩
